import Mathlib

/-!
Shallow embedding of `src/frontend/backend/server.py` (adpay-syria backend).

The server is a FastAPI application over a MongoDB database.  The embedding
models the database as in-memory lists of documents kept in natural
(insertion) order, and each HTTP handler as a pure function from the database
state and the request data to a result (`Except HTTPError α`) and the new
database state.

Conventions of the embedding:
* Timestamps (`datetime.now(timezone.utc)`) are epoch seconds (`Nat`); the
  server stores them as ISO-8601 strings via `.isoformat()`, an injective
  rendering that is omitted here.  `timedelta(days=30)` is `30 * 86400`
  seconds.  Handlers take the current time `now` as an explicit argument.
* Randomness (`uuid.uuid4()`, `bcrypt.gensalt()`) is passed in as explicit
  arguments by the caller.
* `find_one(q)` returns the first document in natural order matching `q`;
  `insert_one` appends; `update_one(q, {"$set": ...})` rewrites the first
  matching document and reports `matched_count`;
  `find(q).sort("created_at", -1).to_list(n)` filters, sorts newest-first
  and truncates to `n` documents.
* FastAPI dependencies `get_current_user` / `get_admin_user` are modelled as
  explicit functions; handlers that depend on `get_admin_user` run its check
  first, exactly as the dependency would.
-/

namespace AdPay

/-- An HTTP error response, as raised by `HTTPException(status_code=..., detail=...)`. -/
structure HTTPError where
  status : Nat
  detail : String
deriving DecidableEq, Repr

/-- The decoded JWT payload: `{'user_id': ..., 'email': ..., 'role': ..., 'exp': ...}`
built in `create_token`. -/
structure TokenPayload where
  user_id : String
  email : String
  role : String
  exp : Nat
deriving DecidableEq, Repr

/-- A stored user document (`user_dict` in `register`), password hash included. -/
structure UserDoc where
  id : String
  email : String
  password : String
  name : String
  phone : String
  role : String
  created_at : Nat
deriving DecidableEq, Repr

/-- The `User` pydantic response model: a user document with the password excluded. -/
structure User where
  id : String
  email : String
  name : String
  phone : String
  role : String
  created_at : Nat
deriving DecidableEq, Repr

/-- An ad-request document (`ad_dict` in `create_ad_request` / the `AdRequest` model). -/
structure AdRequest where
  id : String
  client_id : String
  client_name : String
  client_email : String
  location : String
  product_names : String
  other_info : String
  photos : List String
  payment_type : String
  status : String
  created_at : Nat
deriving DecidableEq, Repr

/-- A payment document (`payment_dict` in `create_payment` / the `Payment` model). -/
structure Payment where
  id : String
  ad_request_id : String
  payment_method : String
  screenshot_url : String
  status : String
  created_at : Nat
  verified_at : Option Nat
deriving DecidableEq, Repr

/-- A subscription document (`sub_dict` in `create_subscription` / the `Subscription` model). -/
structure Subscription where
  id : String
  client_id : String
  client_name : String
  client_email : String
  start_date : Nat
  end_date : Nat
  status : String
  payment_screenshot : String
  payment_method : String
  created_at : Nat
deriving DecidableEq, Repr

/-- A stored file document (`file_doc` in `upload_file`): the raw bytes are kept
base64-encoded in the `data` field (modelled as the character list of the
base64 string); `content_type` comes from the upload and may be absent. -/
structure FileDoc where
  id : String
  filename : String
  data : List Char
  content_type : Option String
  uploaded_by : String
  created_at : Nat
deriving DecidableEq, Repr

/-- The admin-settings document (`AdminSettings` model): QR code image references
for the two payment methods. -/
structure AdminSettings where
  sham_cash_qr : String
  syriatel_qr : String
deriving DecidableEq, Repr

/-- The whole MongoDB database: one list of documents per collection, each kept
in natural (insertion) order. -/
structure DB where
  users : List UserDoc
  ad_requests : List AdRequest
  payments : List Payment
  subscriptions : List Subscription
  files : List FileDoc
  admin_settings : List AdminSettings
deriving DecidableEq, Repr

/-! ### MongoDB primitives -/

/-- Model of `collection.find_one(q)`: the first document in natural order
matching the filter. -/
def findOne (coll : List α) (q : α → Bool) : Option α :=
  coll.find? q

/-- Model of `collection.update_one(q, {"$set": ...})`: rewrites the first
matching document with `f` and returns the new collection together with
`matched_count` (0 or 1). -/
def updateOne : List α → (α → Bool) → (α → α) → List α × Nat
  | [], _, _ => ([], 0)
  | x :: xs, q, f =>
    if q x then (f x :: xs, 1)
    else
      let r := updateOne xs q f
      (x :: r.1, r.2)

/-- Model of `collection.find(q).sort("created_at", -1)`: stable sort of the
matching documents, newest first. -/
def sortDesc (key : α → Nat) (l : List α) : List α :=
  l.mergeSort (fun x y => decide (key y ≤ key x))

/-! ### Identity: JWT tokens and password hashing -/

/-- The JWT signing secret; the default value of the `JWT_SECRET` environment
variable in `server.py`. -/
def JWT_SECRET : String := "your-secret-key-change-in-production"

/-- A JWT as seen by the server: either a well-formed token signed with some
secret, or a malformed string. -/
inductive Jwt where
  | signed (payload : TokenPayload) (secret : String)
  | malformed (raw : String)
deriving DecidableEq, Repr

/-- Model of `jwt.encode(payload, secret, algorithm='HS256')`. -/
def jwt_encode (payload : TokenPayload) (secret : String) : Jwt :=
  .signed payload secret

/-- Model of `jwt.decode(token, secret, algorithms=['HS256'])`: succeeds exactly
on a token signed with the same secret whose `exp` claim is still in the
future; a wrong signature, an expired token or a malformed token raises
(modelled as `none`). -/
def jwt_decode (token : Jwt) (secret : String) (now : Nat) : Option TokenPayload :=
  match token with
  | .signed p s => if s = secret ∧ now < p.exp then some p else none
  | .malformed _ => none

/-- `create_token(user_id, email, role)`: issues a token whose payload carries
the three identity fields and a 30-day expiry from the time of issuance. -/
def create_token (user_id email role : String) (now : Nat) : Jwt :=
  jwt_encode ⟨user_id, email, role, now + 30 * 86400⟩ JWT_SECRET

/-- `get_current_user`: decodes the bearer token, answering 401 on any failure. -/
def get_current_user (token : Jwt) (now : Nat) : Except HTTPError TokenPayload :=
  match jwt_decode token JWT_SECRET now with
  | some payload => .ok payload
  | none => .error ⟨401, "Invalid authentication"⟩

/-- `get_admin_user`: requires the decoded payload to carry the admin role. -/
def get_admin_user (current_user : TokenPayload) : Except HTTPError TokenPayload :=
  if current_user.role ≠ "admin" then .error ⟨403, "Admin access required"⟩
  else .ok current_user

/-- Model of the external `bcrypt.hashpw(password, bcrypt.gensalt())`: a salted
one-way hash whose per-call random salt is passed in explicitly.  No claim
inspects the hash itself; the executable stand-in records salt and password. -/
def hash_password (password : String) (salt : String) : String :=
  "$2b$12$" ++ salt ++ "$" ++ password

/-! ### Auth routes -/

/-- The body returned by `register` and `login`: a token and the user with the
password field excluded. -/
structure AuthResponse where
  token : Jwt
  user : User
deriving DecidableEq, Repr

/-- `POST /api/auth/register`: refuses an already-registered email with 400,
otherwise inserts a new client user and returns a token plus the user record
(password excluded).  `new_id` is the generated `uuid4`, `salt` the bcrypt
salt, `now` the current time. -/
def register (db : DB) (email password name phone : String)
    (new_id salt : String) (now : Nat) : Except HTTPError AuthResponse × DB :=
  match findOne db.users (fun u => u.email == email) with
  | some _ => (.error ⟨400, "Email already registered"⟩, db)
  | none =>
    let user_dict : UserDoc :=
      ⟨new_id, email, hash_password password salt, name, phone, "client", now⟩
    let token := create_token user_dict.id user_dict.email user_dict.role now
    (.ok ⟨token, ⟨new_id, email, name, phone, "client", now⟩⟩,
      { db with users := db.users ++ [user_dict] })

/-! ### File store -/

/-- The base64 alphabet, for the model of Python's `base64` module. -/
def b64alphabet : List Char :=
  "ABCDEFGHIJKLMNOPQRSTUVWXYZabcdefghijklmnopqrstuvwxyz0123456789+/".toList

/-- The character encoding a 6-bit group. -/
def b64char (i : Nat) : Char :=
  b64alphabet.getD i '='

/-- The 6-bit group a base64 character stands for. -/
def b64index (c : Char) : Nat :=
  b64alphabet.indexOf c

/-- Model of `base64.b64encode`: bytes are split into 3-byte groups, each
rendered as four alphabet characters; a trailing group of 1 or 2 bytes is
padded with `=`. -/
def b64encode : List Nat → List Char
  | [] => []
  | [a] => [b64char (a / 4), b64char (a % 4 * 16), '=', '=']
  | [a, b] => [b64char (a / 4), b64char (a % 4 * 16 + b / 16), b64char (b % 16 * 4), '=']
  | a :: b :: c :: rest =>
      b64char (a / 4) :: b64char (a % 4 * 16 + b / 16) ::
        b64char (b % 16 * 4 + c / 64) :: b64char (c % 64) :: b64encode rest

/-- Model of `base64.b64decode`: each 4-character group is decoded back to 3
bytes, or fewer when `=`-padded. -/
def b64decode : List Char → List Nat
  | c1 :: c2 :: c3 :: c4 :: rest =>
      let s1 := b64index c1
      let s2 := b64index c2
      if c3 = '=' then [s1 * 4 + s2 / 16]
      else
        let s3 := b64index c3
        if c4 = '=' then [s1 * 4 + s2 / 16, s2 % 16 * 16 + s3 / 4]
        else
          (s1 * 4 + s2 / 16) :: (s2 % 16 * 16 + s3 / 4) ::
            (s3 % 4 * 64 + b64index c4) :: b64decode rest
  | _ => []

/-- The body returned by `upload_file`. -/
structure UploadResponse where
  file_id : String
  url : String
deriving DecidableEq, Repr

/-- `POST /api/upload`: stores the uploaded bytes base64-encoded together with
filename, content type and uploader, and returns the generated identifier and
URL.  `file_id` is the generated `uuid4`. -/
def upload_file (db : DB) (contents : List Nat) (filename : String)
    (content_type : Option String) (current_user : TokenPayload)
    (file_id : String) (now : Nat) : Except HTTPError UploadResponse × DB :=
  let base64_data := b64encode contents
  let file_doc : FileDoc :=
    ⟨file_id, filename, base64_data, content_type, current_user.user_id, now⟩
  (.ok ⟨file_id, "/api/files/" ++ file_id⟩, { db with files := db.files ++ [file_doc] })

/-- A raw-bytes HTTP response (`fastapi.responses.Response`): body and media type. -/
structure FileResponse where
  content : List Nat
  media_type : String
deriving DecidableEq, Repr

/-- `GET /api/files/{file_id}`: decodes and returns the stored bytes with the
stored content type (defaulting to `application/octet-stream`), or 404 when
no such file exists.  Unauthenticated route. -/
def get_file (db : DB) (file_id : String) : Except HTTPError FileResponse :=
  match findOne db.files (fun f => f.id == file_id) with
  | none => .error ⟨404, "File not found"⟩
  | some file_doc =>
      .ok ⟨b64decode file_doc.data, file_doc.content_type.getD "application/octet-stream"⟩

/-! ### Ad requests -/

/-- `GET /api/ad-requests`: an admin sees every ad request, a client only their
own, newest first, truncated to 1000 documents by `.to_list(1000)`. -/
def get_ad_requests (db : DB) (current_user : TokenPayload) : List AdRequest :=
  if current_user.role == "admin" then
    (sortDesc AdRequest.created_at db.ad_requests).take 1000
  else
    (sortDesc AdRequest.created_at
      (db.ad_requests.filter (fun ad => ad.client_id == current_user.user_id))).take 1000

/-- `GET /api/ad-requests/{ad_id}`: fetch by id; a non-admin caller's query also
requires `client_id` to match, so an ad request owned by someone else answers
the same 404 as a nonexistent id. -/
def get_ad_request (db : DB) (ad_id : String) (current_user : TokenPayload) :
    Except HTTPError AdRequest :=
  let q : AdRequest → Bool := fun ad =>
    if current_user.role ≠ "admin" then ad.id == ad_id && ad.client_id == current_user.user_id
    else ad.id == ad_id
  match findOne db.ad_requests q with
  | none => .error ⟨404, "Ad request not found"⟩
  | some ad => .ok ad

/-! ### Payments -/

/-- The `{"success": True}` body returned by the mutation endpoints. -/
structure SuccessResponse where
  success : Bool
deriving DecidableEq, Repr

/-- The body returned by the screenshot-attachment endpoints. -/
structure ScreenshotResponse where
  success : Bool
  screenshot_url : String
deriving DecidableEq, Repr

/-- `POST /api/payments/{payment_id}/screenshot`: sets the payment's screenshot
URL to `/api/files/{file_id}`.  The update filter is `{"id": payment_id}`
alone — no ownership check on the caller. -/
def upload_payment_screenshot (db : DB) (payment_id file_id : String)
    (current_user : TokenPayload) : Except HTTPError ScreenshotResponse × DB :=
  let screenshot_url := "/api/files/" ++ file_id
  let r := updateOne db.payments (fun p => p.id == payment_id)
    (fun p => { p with screenshot_url := screenshot_url })
  let db' := { db with payments := r.1 }
  if r.2 == 0 then (.error ⟨404, "Payment not found"⟩, db')
  else (.ok ⟨true, screenshot_url⟩, db')

/-- `GET /api/payments`: an admin sees every payment; a client sees the payments
whose `ad_request_id` is among (the first 1000 of) their own ad requests;
newest first, truncated to 1000. -/
def get_payments (db : DB) (current_user : TokenPayload) : List Payment :=
  if current_user.role == "admin" then
    (sortDesc Payment.created_at db.payments).take 1000
  else
    let ad_ids :=
      ((db.ad_requests.filter (fun ad => ad.client_id == current_user.user_id)).take 1000).map
        AdRequest.id
    (sortDesc Payment.created_at
      (db.payments.filter (fun p => ad_ids.contains p.ad_request_id))).take 1000

/-- `PATCH /api/payments/{payment_id}/verify` (admin only): marks the payment
verified with a timestamp, then separately sets the linked ad request's
status to `paid`.  The two writes are independent `update_one` calls; the
second silently matches nothing when the referenced ad request is absent. -/
def verify_payment (db : DB) (payment_id : String) (current_user : TokenPayload)
    (now : Nat) : Except HTTPError SuccessResponse × DB :=
  match get_admin_user current_user with
  | .error e => (.error e, db)
  | .ok _ =>
    match findOne db.payments (fun p => p.id == payment_id) with
    | none => (.error ⟨404, "Payment not found"⟩, db)
    | some payment =>
      let payments' := (updateOne db.payments (fun p => p.id == payment_id)
        (fun p => { p with status := "verified", verified_at := some now })).1
      let ad_requests' := (updateOne db.ad_requests (fun ad => ad.id == payment.ad_request_id)
        (fun ad => { ad with status := "paid" })).1
      (.ok ⟨true⟩, { db with payments := payments', ad_requests := ad_requests' })

/-! ### Subscriptions -/

/-- `POST /api/subscriptions`: snapshots the caller's name and email, sets
`start_date = now`, `end_date = now + 30 days`, status `pending`.  When the
caller's user document is missing, `user['name']` on `None` raises an
uncaught `TypeError`, surfaced by FastAPI as a 500. -/
def create_subscription (db : DB) (payment_method : String)
    (current_user : TokenPayload) (new_id : String) (now : Nat) :
    Except HTTPError Subscription × DB :=
  match findOne db.users (fun u => u.id == current_user.user_id) with
  | none => (.error ⟨500, "Internal Server Error"⟩, db)
  | some user =>
    let start_date := now
    let end_date := start_date + 30 * 86400
    let sub_dict : Subscription :=
      ⟨new_id, current_user.user_id, user.name, user.email,
        start_date, end_date, "pending", "", payment_method, now⟩
    (.ok sub_dict, { db with subscriptions := db.subscriptions ++ [sub_dict] })

/-- `GET /api/subscriptions/my`: the caller's own subscriptions, newest first,
truncated to 1000. -/
def get_my_subscriptions (db : DB) (current_user : TokenPayload) : List Subscription :=
  (sortDesc Subscription.created_at
    (db.subscriptions.filter (fun s => s.client_id == current_user.user_id))).take 1000

/-- `GET /api/subscriptions` (admin only): every subscription, newest first,
truncated to 1000. -/
def get_all_subscriptions (db : DB) (current_user : TokenPayload) :
    Except HTTPError (List Subscription) :=
  match get_admin_user current_user with
  | .error e => .error e
  | .ok _ => .ok ((sortDesc Subscription.created_at db.subscriptions).take 1000)

/-- `PATCH /api/subscriptions/{sub_id}/verify` (admin only): sets the status of
the subscription to `active`; nothing else, in particular not `end_date`. -/
def verify_subscription (db : DB) (sub_id : String) (current_user : TokenPayload) :
    Except HTTPError SuccessResponse × DB :=
  match get_admin_user current_user with
  | .error e => (.error e, db)
  | .ok _ =>
    let r := updateOne db.subscriptions (fun s => s.id == sub_id)
      (fun s => { s with status := "active" })
    let db' := { db with subscriptions := r.1 }
    if r.2 == 0 then (.error ⟨404, "Subscription not found"⟩, db')
    else (.ok ⟨true⟩, db')

/-! ### Admin settings -/

/-- `GET /api/admin/settings` (unauthenticated): returns the first settings
document, lazily inserting the all-empty default when the collection holds
none. -/
def get_admin_settings (db : DB) : AdminSettings × DB :=
  match findOne db.admin_settings (fun _ => true) with
  | none =>
    let default_settings : AdminSettings := ⟨"", ""⟩
    (default_settings, { db with admin_settings := db.admin_settings ++ [default_settings] })
  | some settings => (settings, db)

/-! ### Helper lemmas about the MongoDB primitives -/

theorem updateOne_of_find?_eq_none (l : List α) (q : α → Bool) (f : α → α)
    (h : l.find? q = none) : updateOne l q f = (l, 0) := by
  induction l with
  | nil => rfl
  | cons x xs ih =>
    cases hqx : q x with
    | true => simp [List.find?_cons_of_pos _ hqx] at h
    | false =>
      rw [List.find?_cons_of_neg _ (by simp [hqx])] at h
      simp [updateOne, hqx, ih h]

theorem updateOne_of_find?_eq_some (l : List α) (q : α → Bool) (f : α → α) (a : α)
    (h : l.find? q = some a) (hf : q (f a) = true) :
    (updateOne l q f).1.find? q = some (f a) ∧ (updateOne l q f).2 = 1 := by
  induction l with
  | nil => simp [List.find?] at h
  | cons x xs ih =>
    cases hqx : q x with
    | true =>
      rw [List.find?_cons_of_pos _ hqx] at h
      have hxa : x = a := by injection h
      subst hxa
      simp [updateOne, hqx, List.find?_cons_of_pos _ hf]
    | false =>
      rw [List.find?_cons_of_neg _ (by simp [hqx])] at h
      have := ih h
      simp [updateOne, hqx, List.find?_cons_of_neg _ (by simp [hqx] : ¬ q x = true),
        this.1, this.2]

theorem find?_key_of_mem {β : Type} [BEq β] [LawfulBEq β] (key : α → β) {l : List α} {a : α}
    (hp : l.Pairwise (fun x y => key x ≠ key y)) (ha : a ∈ l) :
    l.find? (fun d => key d == key a) = some a := by
  induction l with
  | nil => simp at ha
  | cons x xs ih =>
    rcases List.mem_cons.mp ha with hax | hax
    · subst hax
      exact List.find?_cons_of_pos _ (by simp)
    · have hne : key x ≠ key a := (List.pairwise_cons.mp hp).1 a hax
      rw [List.find?_cons_of_neg _ (by simp [hne])]
      exact ih (List.pairwise_cons.mp hp).2 hax

theorem find?_key_and_of_mem {β : Type} [BEq β] [LawfulBEq β] (key : α → β) (q : α → Bool)
    {l : List α} {a : α}
    (hp : l.Pairwise (fun x y => key x ≠ key y)) (ha : a ∈ l) (hq : q a = true) :
    l.find? (fun d => key d == key a && q d) = some a := by
  induction l with
  | nil => simp at ha
  | cons x xs ih =>
    rcases List.mem_cons.mp ha with hax | hax
    · subst hax
      exact List.find?_cons_of_pos _ (by simp [hq])
    · have hne : key x ≠ key a := (List.pairwise_cons.mp hp).1 a hax
      rw [List.find?_cons_of_neg _ (by simp [hne])]
      exact ih (List.pairwise_cons.mp hp).2 hax

theorem find?_key_and_of_mem_neg {β : Type} [BEq β] [LawfulBEq β] (key : α → β) (q : α → Bool)
    {l : List α} {a : α}
    (hp : l.Pairwise (fun x y => key x ≠ key y)) (ha : a ∈ l) (hq : q a = false) :
    l.find? (fun d => key d == key a && q d) = none := by
  rw [List.find?_eq_none]
  intro d hd hcontra
  simp only [Bool.and_eq_true, beq_iff_eq] at hcontra
  by_cases hda : d = a
  · subst hda
    rw [hq] at hcontra
    exact Bool.false_ne_true hcontra.2
  · have hsymm : Symmetric fun x y : α => key x ≠ key y := fun x y h hk => h hk.symm
    exact hp.forall hsymm hd ha hda hcontra.1

/-! ### Helper lemmas about the base64 model -/

theorem b64index_b64char : ∀ s : Nat, s < 64 → b64index (b64char s) = s := by decide

theorem b64char_ne_pad : ∀ s : Nat, s < 64 → b64char s ≠ '=' := by decide

theorem b64decode_b64encode : ∀ bs : List Nat, (∀ x ∈ bs, x < 256) →
    b64decode (b64encode bs) = bs
  | [], _ => rfl
  | [a], h => by
    have ha : a < 256 := h a (by simp)
    have h1 : a / 4 < 64 := by omega
    have h2 : a % 4 * 16 < 64 := by omega
    simp only [b64encode, b64decode, if_pos, b64index_b64char _ h1, b64index_b64char _ h2,
      List.cons.injEq, and_true]
    omega
  | [a, b], h => by
    have ha : a < 256 := h a (by simp)
    have hb : b < 256 := h b (by simp)
    have h1 : a / 4 < 64 := by omega
    have h2 : a % 4 * 16 + b / 16 < 64 := by omega
    have h3 : b % 16 * 4 < 64 := by omega
    simp only [b64encode, b64decode, eq_false (b64char_ne_pad _ h3), if_false, if_pos,
      b64index_b64char _ h1, b64index_b64char _ h2, b64index_b64char _ h3,
      List.cons.injEq, and_true]
    constructor <;> omega
  | a :: b :: c :: rest, h => by
    have ha : a < 256 := h a (by simp)
    have hb : b < 256 := h b (by simp)
    have hc : c < 256 := h c (by simp)
    have h1 : a / 4 < 64 := by omega
    have h2 : a % 4 * 16 + b / 16 < 64 := by omega
    have h3 : b % 16 * 4 + c / 64 < 64 := by omega
    have h4 : c % 64 < 64 := by omega
    have hrest : b64decode (b64encode rest) = rest :=
      b64decode_b64encode rest (fun x hx => h x (by simp [hx]))
    simp only [b64encode, b64decode, eq_false (b64char_ne_pad _ h3),
      eq_false (b64char_ne_pad _ h4), if_false,
      b64index_b64char _ h1, b64index_b64char _ h2, b64index_b64char _ h3,
      b64index_b64char _ h4, List.cons.injEq]
    refine ⟨by omega, by omega, by omega, hrest⟩

/-! ### Concrete sample data for witnesses -/

/-- A sample pending ad request owned by client `c1`. -/
def sampleAd : AdRequest :=
  ⟨"a1", "c1", "Client One", "c1@x.com", "Damascus", "soap", "", [], "per-ad", "pending", 3⟩

/-- A sample pending payment for `sampleAd`. -/
def samplePayment : Payment := ⟨"p1", "a1", "sham_cash", "", "pending", 5, none⟩

/-- A sample admin token payload. -/
def sampleAdmin : TokenPayload := ⟨"u0", "admin@x.com", "admin", 0⟩

/-- A database holding `sampleAd` and `samplePayment`. -/
def sampleDB : DB := ⟨[], [sampleAd], [samplePayment], [], [], []⟩

/-- A database holding one payment whose `ad_request_id` references no ad request. -/
def danglingDB : DB := ⟨[], [], [⟨"p2", "zz", "sham_cash", "", "pending", 5, none⟩], [], [], []⟩

/-- An entirely empty database. -/
def emptyDB : DB := ⟨[], [], [], [], [], []⟩

/-! ### The claims -/

/-- Claim C1: for every existing Payment `p` (the first document carrying its
id), calling `verify(p.id)` as an admin answers success, sets `p.status` to
`verified` and `p.verified_at` to a non-null timestamp, and sets the status
of the AdRequest referenced by `p.ad_request_id` to `paid`; both updates are
observable by `find_one` after the call returns. -/
theorem verify_payment_verifies_and_cascades
    (db : DB) (p : Payment) (ar : AdRequest) (admin : TokenPayload) (now : Nat)
    (hadmin : admin.role = "admin")
    (hp : findOne db.payments (fun x => x.id == p.id) = some p)
    (har : findOne db.ad_requests (fun x => x.id == p.ad_request_id) = some ar) :
    (verify_payment db p.id admin now).1 = .ok ⟨true⟩ ∧
    findOne (verify_payment db p.id admin now).2.payments (fun x => x.id == p.id) =
      some { p with status := "verified", verified_at := some now } ∧
    findOne (verify_payment db p.id admin now).2.ad_requests
        (fun x => x.id == p.ad_request_id) =
      some { ar with status := "paid" } := by
  simp only [findOne] at hp har
  have harid : ar.id = p.ad_request_id := by
    have := List.find?_some har
    simpa using this
  have hup := updateOne_of_find?_eq_some db.payments (fun x => x.id == p.id)
    (fun x => { x with status := "verified", verified_at := some now }) p hp (by simp)
  have hua := updateOne_of_find?_eq_some db.ad_requests (fun x => x.id == p.ad_request_id)
    (fun x => { x with status := "paid" }) ar har (by simp [harid])
  simp [verify_payment, get_admin_user, hadmin, findOne, hp, hup.1, hua.1]

/-- Witness for C1: verifying `samplePayment` in `sampleDB` marks it verified and
marks `sampleAd` paid. -/
theorem verify_payment_verifies_and_cascades_witness :
    sampleAdmin.role = "admin" ∧
    findOne sampleDB.payments (fun x => x.id == samplePayment.id) = some samplePayment ∧
    findOne sampleDB.ad_requests (fun x => x.id == samplePayment.ad_request_id) =
      some sampleAd ∧
    ((verify_payment sampleDB samplePayment.id sampleAdmin 7).1 = .ok ⟨true⟩ ∧
      findOne (verify_payment sampleDB samplePayment.id sampleAdmin 7).2.payments
          (fun x => x.id == samplePayment.id) =
        some { samplePayment with status := "verified", verified_at := some 7 } ∧
      findOne (verify_payment sampleDB samplePayment.id sampleAdmin 7).2.ad_requests
          (fun x => x.id == samplePayment.ad_request_id) =
        some { sampleAd with status := "paid" }) :=
  ⟨rfl, by decide, by decide,
    verify_payment_verifies_and_cascades sampleDB samplePayment sampleAd sampleAdmin 7
      rfl (by decide) (by decide)⟩

/-- Claim C10: for every existing Payment `p` whose `ad_request_id` references no
existing AdRequest, admin `verify(p.id)` still reports success and marks `p`
verified with a timestamp, while the ad-request collection is left entirely
unchanged; no error is raised and the payment update is not rolled back. -/
theorem verify_payment_dangling_ad_request
    (db : DB) (p : Payment) (admin : TokenPayload) (now : Nat)
    (hadmin : admin.role = "admin")
    (hp : findOne db.payments (fun x => x.id == p.id) = some p)
    (har : findOne db.ad_requests (fun x => x.id == p.ad_request_id) = none) :
    (verify_payment db p.id admin now).1 = .ok ⟨true⟩ ∧
    findOne (verify_payment db p.id admin now).2.payments (fun x => x.id == p.id) =
      some { p with status := "verified", verified_at := some now } ∧
    (verify_payment db p.id admin now).2.ad_requests = db.ad_requests := by
  simp only [findOne] at hp har
  have hup := updateOne_of_find?_eq_some db.payments (fun x => x.id == p.id)
    (fun x => { x with status := "verified", verified_at := some now }) p hp (by simp)
  have hua := updateOne_of_find?_eq_none db.ad_requests (fun x => x.id == p.ad_request_id)
    (fun x => { x with status := "paid" }) har
  simp [verify_payment, get_admin_user, hadmin, findOne, hp, hup.1, hua]

/-- Witness for C10: verifying the payment of `danglingDB`, whose ad request is
missing, still succeeds and leaves the (empty) ad-request collection alone. -/
theorem verify_payment_dangling_ad_request_witness :
    sampleAdmin.role = "admin" ∧
    findOne danglingDB.payments (fun x => x.id == "p2") = some ⟨"p2", "zz", "sham_cash", "", "pending", 5, none⟩ ∧
    findOne danglingDB.ad_requests (fun x => x.id == "zz") = none ∧
    ((verify_payment danglingDB "p2" sampleAdmin 9).1 = .ok ⟨true⟩ ∧
      findOne (verify_payment danglingDB "p2" sampleAdmin 9).2.payments
          (fun x => x.id == "p2") =
        some ⟨"p2", "zz", "sham_cash", "", "verified", 5, some 9⟩ ∧
      (verify_payment danglingDB "p2" sampleAdmin 9).2.ad_requests =
        danglingDB.ad_requests) :=
  ⟨rfl, by decide, by decide,
    verify_payment_dangling_ad_request danglingDB
      ⟨"p2", "zz", "sham_cash", "", "pending", 5, none⟩ sampleAdmin 9
      rfl (by decide) (by decide)⟩

/-- Claim C5: for every existing Payment `p` and every authenticated caller,
whatever their role or user id, `attach-screenshot(p.id, file_id)` succeeds
and sets the screenshot URL of `p` to `/api/files/{file_id}`; the caller
appears nowhere in the update filter, so no ownership check is performed. -/
theorem payment_screenshot_no_ownership_check
    (db : DB) (p : Payment) (caller : TokenPayload) (fid : String)
    (hp : findOne db.payments (fun x => x.id == p.id) = some p) :
    (upload_payment_screenshot db p.id fid caller).1 =
      .ok ⟨true, "/api/files/" ++ fid⟩ ∧
    findOne (upload_payment_screenshot db p.id fid caller).2.payments
        (fun x => x.id == p.id) =
      some { p with screenshot_url := "/api/files/" ++ fid } := by
  simp only [findOne] at hp
  have hup := updateOne_of_find?_eq_some db.payments (fun x => x.id == p.id)
    (fun x => { x with screenshot_url := "/api/files/" ++ fid }) p hp (by simp)
  simp [upload_payment_screenshot, findOne, hup.1, hup.2]

/-- Witness for C5: a client token unrelated to the ad request behind
`samplePayment` attaches a screenshot to it successfully. -/
theorem payment_screenshot_no_ownership_check_witness :
    findOne sampleDB.payments (fun x => x.id == samplePayment.id) = some samplePayment ∧
    ((upload_payment_screenshot sampleDB samplePayment.id "f9"
        ⟨"eve", "eve@x.com", "client", 0⟩).1 = .ok ⟨true, "/api/files/" ++ "f9"⟩ ∧
      findOne (upload_payment_screenshot sampleDB samplePayment.id "f9"
          ⟨"eve", "eve@x.com", "client", 0⟩).2.payments
          (fun x => x.id == samplePayment.id) =
        some { samplePayment with screenshot_url := "/api/files/" ++ "f9" }) :=
  ⟨by decide,
    payment_screenshot_no_ownership_check sampleDB samplePayment
      ⟨"eve", "eve@x.com", "client", 0⟩ "f9" (by decide)⟩

/-- A sample stored user. -/
def sampleUser : UserDoc := ⟨"u1", "a@x.com", "h", "A", "1", "client", 0⟩

/-- A database holding only `sampleUser`. -/
def oneUserDB : DB := ⟨[sampleUser], [], [], [], [], []⟩

/-- Claim C2: for every email, registering while a user with that email exists
fails with HTTP 400 and changes nothing; registering while no user has that
email inserts exactly one new user with role `client` and returns the signed
token together with the user record with the password field excluded (the
`User` response type carries no password field). -/
theorem register_duplicate_email_and_success
    (db : DB) (email password name phone new_id salt : String) (now : Nat) :
    ((∃ u ∈ db.users, u.email = email) →
      register db email password name phone new_id salt now =
        (.error ⟨400, "Email already registered"⟩, db)) ∧
    ((∀ u ∈ db.users, u.email ≠ email) →
      register db email password name phone new_id salt now =
        (.ok ⟨create_token new_id email "client" now,
            ⟨new_id, email, name, phone, "client", now⟩⟩,
          { db with users := db.users ++
              [⟨new_id, email, hash_password password salt, name, phone, "client", now⟩] })) := by
  constructor
  · rintro ⟨u, hu, he⟩
    have hsome : (db.users.find? (fun v => v.email == email)).isSome := by
      rw [List.find?_isSome]
      exact ⟨u, hu, by simp [he]⟩
    obtain ⟨x, hx⟩ := Option.isSome_iff_exists.mp hsome
    simp [register, findOne, hx]
  · intro h
    have hnone : db.users.find? (fun v => v.email == email) = none := by
      rw [List.find?_eq_none]
      intro x hx
      simp [h x hx]
    simp [register, findOne, hnone]

/-- Witness for C2: the duplicate branch on a database owning `a@x.com`, the
success branch on the empty database. -/
theorem register_duplicate_email_and_success_witness :
    (∃ u ∈ oneUserDB.users, u.email = "a@x.com") ∧
    register oneUserDB "a@x.com" "pw" "B" "2" "u2" "s2" 9 =
      (.error ⟨400, "Email already registered"⟩, oneUserDB) ∧
    (∀ u ∈ emptyDB.users, u.email ≠ "b@x.com") ∧
    register emptyDB "b@x.com" "pw" "B" "2" "u2" "s2" 9 =
      (.ok ⟨create_token "u2" "b@x.com" "client" 9, ⟨"u2", "b@x.com", "B", "2", "client", 9⟩⟩,
        { emptyDB with users :=
            [⟨"u2", "b@x.com", hash_password "pw" "s2", "B", "2", "client", 9⟩] }) :=
  ⟨⟨sampleUser, by decide, rfl⟩,
    (register_duplicate_email_and_success oneUserDB "a@x.com" "pw" "B" "2" "u2" "s2" 9).1
      ⟨sampleUser, by decide, rfl⟩,
    by simp [emptyDB],
    (register_duplicate_email_and_success emptyDB "b@x.com" "pw" "B" "2" "u2" "s2" 9).2
      (by simp [emptyDB])⟩

/-- Claim C3: decoding a token produced by `create_token(user_id, email, role)`
before its 30-day expiry yields a payload carrying exactly those three
values; at or after the expiry instant, or on a malformed token, verification
answers HTTP 401. -/
theorem token_roundtrip_and_rejection
    (uid email role raw : String) (issued now : Nat) :
    (now < issued + 30 * 86400 →
      get_current_user (create_token uid email role issued) now =
        .ok ⟨uid, email, role, issued + 30 * 86400⟩) ∧
    (issued + 30 * 86400 ≤ now →
      get_current_user (create_token uid email role issued) now =
        .error ⟨401, "Invalid authentication"⟩) ∧
    get_current_user (.malformed raw) now = .error ⟨401, "Invalid authentication"⟩ := by
  refine ⟨fun h => ?_, fun h => ?_, rfl⟩
  · simp [get_current_user, create_token, jwt_encode, jwt_decode, h]
  · simp [get_current_user, create_token, jwt_encode, jwt_decode, Nat.not_lt.mpr h]

/-- Witness for C3: a token issued at time 0 decodes at time 5 to the same
identity, is rejected at time 10000000, and a malformed token is rejected. -/
theorem token_roundtrip_and_rejection_witness :
    ((5 : Nat) < 0 + 30 * 86400 ∧
      get_current_user (create_token "u1" "a@x.com" "client" 0) 5 =
        .ok ⟨"u1", "a@x.com", "client", 0 + 30 * 86400⟩) ∧
    ((0 : Nat) + 30 * 86400 ≤ 10000000 ∧
      get_current_user (create_token "u1" "a@x.com" "client" 0) 10000000 =
        .error ⟨401, "Invalid authentication"⟩) ∧
    get_current_user (.malformed "zz") 5 = .error ⟨401, "Invalid authentication"⟩ :=
  ⟨⟨by decide,
      (token_roundtrip_and_rejection "u1" "a@x.com" "client" "zz" 0 5).1 (by decide)⟩,
    ⟨by decide,
      (token_roundtrip_and_rejection "u1" "a@x.com" "client" "zz" 0 10000000).2.1 (by decide)⟩,
    (token_roundtrip_and_rejection "u1" "a@x.com" "client" "zz" 0 5).2.2⟩

/-- A sample pending subscription. -/
def sampleSub : Subscription :=
  ⟨"s1", "c9", "Client Nine", "c9@x.com", 10, 2592010, "pending", "", "syriatel", 10⟩

/-- A database holding only `sampleSub`. -/
def subDB : DB := ⟨[], [], [], [sampleSub], [], []⟩

/-- Claim C6: `create-subscription` sets `start_date` to the creation time,
`end_date` to exactly `start_date + 30` days and status `pending`; admin
`verify` on an existing subscription sets its status to `active` and leaves
every other field, in particular `end_date`, unchanged. -/
theorem subscription_window_and_verify_frame
    (db db2 : DB) (user : UserDoc) (client admin : TokenPayload)
    (method new_id : String) (now : Nat) (s : Subscription)
    (huser : findOne db.users (fun u => u.id == client.user_id) = some user)
    (hadmin : admin.role = "admin")
    (hs : findOne db2.subscriptions (fun x => x.id == s.id) = some s) :
    (create_subscription db method client new_id now).1 =
      .ok ⟨new_id, client.user_id, user.name, user.email, now, now + 30 * 86400,
        "pending", "", method, now⟩ ∧
    (verify_subscription db2 s.id admin).1 = .ok ⟨true⟩ ∧
    findOne (verify_subscription db2 s.id admin).2.subscriptions (fun x => x.id == s.id) =
      some { s with status := "active" } ∧
    ({ s with status := "active" } : Subscription).end_date = s.end_date := by
  simp only [findOne] at huser hs
  have hup := updateOne_of_find?_eq_some db2.subscriptions (fun x => x.id == s.id)
    (fun x => { x with status := "active" }) s hs (by simp)
  refine ⟨?_, ?_, ?_, rfl⟩
  · simp [create_subscription, findOne, huser]
  · simp [verify_subscription, get_admin_user, hadmin, hup.2]
  · simp [verify_subscription, get_admin_user, hadmin, findOne, hup.1, hup.2]

/-- Witness for C6: creating a subscription for `sampleUser` at time 100 and
verifying `sampleSub` in `subDB`. -/
theorem subscription_window_and_verify_frame_witness :
    findOne oneUserDB.users (fun u => u.id == "u1") = some sampleUser ∧
    sampleAdmin.role = "admin" ∧
    findOne subDB.subscriptions (fun x => x.id == sampleSub.id) = some sampleSub ∧
    ((create_subscription oneUserDB "syriatel" ⟨"u1", "a@x.com", "client", 0⟩ "s2" 100).1 =
        .ok ⟨"s2", "u1", "A", "a@x.com", 100, 100 + 30 * 86400, "pending", "", "syriatel", 100⟩ ∧
      (verify_subscription subDB sampleSub.id sampleAdmin).1 = .ok ⟨true⟩ ∧
      findOne (verify_subscription subDB sampleSub.id sampleAdmin).2.subscriptions
          (fun x => x.id == sampleSub.id) = some { sampleSub with status := "active" } ∧
      ({ sampleSub with status := "active" } : Subscription).end_date = sampleSub.end_date) :=
  ⟨by decide, rfl, by decide,
    subscription_window_and_verify_frame oneUserDB subDB sampleUser
      ⟨"u1", "a@x.com", "client", 0⟩ sampleAdmin "syriatel" "s2" 100 sampleSub
      (by decide) rfl (by decide)⟩

/-- Claim C7: fetching admin settings when no settings document exists returns
the all-empty default and persists exactly that one document; a second fetch
returns the same document and does not insert another, so the collection
remains a singleton. -/
theorem admin_settings_lazy_singleton (db : DB) (h : db.admin_settings = []) :
    (get_admin_settings db).1 = ⟨"", ""⟩ ∧
    (get_admin_settings db).2.admin_settings = [⟨"", ""⟩] ∧
    get_admin_settings (get_admin_settings db).2 = (⟨"", ""⟩, (get_admin_settings db).2) := by
  simp [get_admin_settings, findOne, h, List.find?]

/-- Witness for C7: the two fetches on the empty database. -/
theorem admin_settings_lazy_singleton_witness :
    emptyDB.admin_settings = [] ∧
    ((get_admin_settings emptyDB).1 = ⟨"", ""⟩ ∧
      (get_admin_settings emptyDB).2.admin_settings = [⟨"", ""⟩] ∧
      get_admin_settings (get_admin_settings emptyDB).2 =
        (⟨"", ""⟩, (get_admin_settings emptyDB).2)) :=
  ⟨rfl, admin_settings_lazy_singleton emptyDB rfl⟩

/-- Claim C8: for every byte string, filename and content type, retrieving the
identifier handed out by `upload` returns exactly the uploaded bytes with the
stored content type as the response media type; retrieving an identifier for
which no file exists answers HTTP 404. -/
theorem file_upload_roundtrip
    (db : DB) (contents : List Nat) (filename : String) (ctype : Option String)
    (uploader : TokenPayload) (fid : String) (now : Nat)
    (hbytes : ∀ x ∈ contents, x < 256)
    (hfresh : findOne db.files (fun f => f.id == fid) = none) :
    (upload_file db contents filename ctype uploader fid now).1 =
      .ok ⟨fid, "/api/files/" ++ fid⟩ ∧
    get_file (upload_file db contents filename ctype uploader fid now).2 fid =
      .ok ⟨contents, ctype.getD "application/octet-stream"⟩ ∧
    (∀ (db' : DB) (fid' : String), findOne db'.files (fun f => f.id == fid') = none →
      get_file db' fid' = .error ⟨404, "File not found"⟩) := by
  simp only [findOne] at hfresh
  refine ⟨rfl, ?_, ?_⟩
  · simp [get_file, upload_file, findOne, List.find?_append, hfresh, List.find?,
      b64decode_b64encode contents hbytes]
  · intro db' fid' h
    simp only [findOne] at h
    simp [get_file, findOne, h]

/-- Witness for C8: uploading the bytes `[0, 7, 255, 64]` as a PNG to the empty
database and fetching them back; fetching a missing id answers 404. -/
theorem file_upload_roundtrip_witness :
    (∀ x ∈ [0, 7, 255, 64], x < 256) ∧
    findOne emptyDB.files (fun f => f.id == "f1") = none ∧
    ((upload_file emptyDB [0, 7, 255, 64] "a.png" (some "image/png")
        ⟨"u1", "a@x.com", "client", 0⟩ "f1" 11).1 = .ok ⟨"f1", "/api/files/" ++ "f1"⟩ ∧
      get_file (upload_file emptyDB [0, 7, 255, 64] "a.png" (some "image/png")
          ⟨"u1", "a@x.com", "client", 0⟩ "f1" 11).2 "f1" =
        .ok ⟨[0, 7, 255, 64], (some "image/png").getD "application/octet-stream"⟩ ∧
      (∀ (db' : DB) (fid' : String), findOne db'.files (fun f => f.id == fid') = none →
        get_file db' fid' = .error ⟨404, "File not found"⟩)) :=
  ⟨by decide, by decide,
    file_upload_roundtrip emptyDB [0, 7, 255, 64] "a.png" (some "image/png")
      ⟨"u1", "a@x.com", "client", 0⟩ "f1" 11 (by decide) (by decide)⟩

/-- Claim C9: every list endpoint (ad requests, payments, subscriptions-mine,
subscriptions-all) hands back `min 1000 n` documents when `n` documents match
its filter: never more than 1000, and when more than 1000 match, everything
beyond the first 1000 in newest-first order is silently omitted. -/
theorem list_endpoints_truncate_at_1000 (db : DB) (u : TokenPayload) :
    (get_ad_requests db u).length =
      min 1000 (if u.role == "admin" then db.ad_requests.length
        else (db.ad_requests.filter (fun ad => ad.client_id == u.user_id)).length) ∧
    (get_payments db u).length =
      min 1000 (if u.role == "admin" then db.payments.length
        else (db.payments.filter (fun p =>
          (((db.ad_requests.filter (fun ad => ad.client_id == u.user_id)).take 1000).map
            AdRequest.id).contains p.ad_request_id)).length) ∧
    (get_my_subscriptions db u).length =
      min 1000 (db.subscriptions.filter (fun s => s.client_id == u.user_id)).length ∧
    (get_all_subscriptions db u).map List.length =
      (get_admin_user u).map (fun _ => min 1000 db.subscriptions.length) := by
  refine ⟨?_, ?_, ?_, ?_⟩
  · cases hrole : u.role == "admin" <;>
      simp [get_ad_requests, hrole, sortDesc, List.length_take]
  · cases hrole : u.role == "admin" <;>
      simp [get_payments, hrole, sortDesc, List.length_take]
  · simp [get_my_subscriptions, sortDesc, List.length_take]
  · by_cases hrole : u.role = "admin" <;>
      simp [get_all_subscriptions, get_admin_user, hrole, sortDesc, Except.map,
        List.length_take]

/-- The `i`-th of the 1001 ad requests of the truncation counterexample. -/
def cexAd (i : Nat) : AdRequest :=
  ⟨"ad" ++ toString i, "c1", "Client One", "c1@x.com", "Damascus", "soap", "", [],
    "per-ad", "pending", i⟩

/-- A database where client `c1` owns 1001 ad requests. -/
def cexListDB : DB := ⟨[], (List.range 1001).map cexAd, [], [], [], []⟩

/-- The token payload of client `c1`. -/
def cexClient : TokenPayload := ⟨"c1", "c1@x.com", "client", 0⟩

set_option maxRecDepth 8000 in
/-- Counterexample to claim C4 as stated: in a database where client `c1` owns
1001 ad requests, `c1`'s list (truncated to 1000 documents) cannot contain
every ad request `c1` created. -/
theorem adRequest_owner_list_cex :
    ¬ (∀ a ∈ cexListDB.ad_requests, a.client_id = "c1" →
        a ∈ get_ad_requests cexListDB cexClient) := by
  intro hall
  have hinj : Function.Injective cexAd := by
    intro i j hij
    simpa [cexAd] using congrArg AdRequest.created_at hij
  have hnodup : cexListDB.ad_requests.Nodup :=
    (List.nodup_range 1001).map hinj
  have hsub : cexListDB.ad_requests.toFinset ⊆
      (get_ad_requests cexListDB cexClient).toFinset := by
    intro x hx
    rw [List.mem_toFinset] at hx ⊢
    have hcl : x.client_id = "c1" := by
      obtain ⟨i, -, rfl⟩ :=
        List.mem_map.mp (show x ∈ (List.range 1001).map cexAd from hx)
      rfl
    exact hall x hx hcl
  have h1 : cexListDB.ad_requests.toFinset.card = 1001 := by
    rw [List.toFinset_card_of_nodup hnodup]
    show ((List.range 1001).map cexAd).length = 1001
    simp
  have h2 := Finset.card_le_card hsub
  have h3 := List.toFinset_card_le (get_ad_requests cexListDB cexClient)
  have h4 : (get_ad_requests cexListDB cexClient).length ≤ 1000 := by
    have hb : (cexClient.role == "admin") = false := by decide
    simp [get_ad_requests, hb, List.length_take]
  omega

/-- Claim C4 as amended: with unique ids, the owner retrieves their ad request
by id and, provided they own at most 1000 ad requests (the claim as stated
fails beyond the 1000-document truncation, see the counterexample), finds it
in their list; a different client gets the same 404 as for a nonexistent id
and never sees it in their list; an admin retrieves it by id regardless of
owner and, provided at most 1000 ad requests exist, finds it in the list. -/
theorem adRequest_ownership_isolation
    (db : DB) (a : AdRequest) (c1 c2 admin : TokenPayload)
    (hmem : a ∈ db.ad_requests)
    (huniq : db.ad_requests.Pairwise (fun x y => x.id ≠ y.id))
    (hrole1 : c1.role = "client") (hown : a.client_id = c1.user_id)
    (hrole2 : c2.role = "client") (hdiff : c2.user_id ≠ c1.user_id)
    (hadmin : admin.role = "admin") :
    get_ad_request db a.id c1 = .ok a ∧
    ((db.ad_requests.filter (fun ad => ad.client_id == c1.user_id)).length ≤ 1000 →
      a ∈ get_ad_requests db c1) ∧
    get_ad_request db a.id c2 = .error ⟨404, "Ad request not found"⟩ ∧
    a ∉ get_ad_requests db c2 ∧
    get_ad_request db a.id admin = .ok a ∧
    (db.ad_requests.length ≤ 1000 → a ∈ get_ad_requests db admin) := by
  refine ⟨?_, ?_, ?_, ?_, ?_, ?_⟩
  · have hfind := find?_key_and_of_mem AdRequest.id
      (fun d => d.client_id == c1.user_id) huniq hmem (by simp [hown])
    simp [get_ad_request, findOne, hrole1, hfind]
  · intro hlen
    have hb : (c1.role == "admin") = false := by simp [hrole1]
    simp only [get_ad_requests, hb, Bool.false_eq_true, if_false]
    rw [List.take_of_length_le (by simpa [sortDesc] using hlen)]
    simp [sortDesc, hmem, hown]
  · have hfind := find?_key_and_of_mem_neg AdRequest.id
      (fun d => d.client_id == c2.user_id) huniq hmem
      (by simp [hown]; exact fun h => hdiff h.symm)
    simp [get_ad_request, findOne, hrole2, hfind]
  · intro hin
    have hb : (c2.role == "admin") = false := by simp [hrole2]
    simp only [get_ad_requests, hb, Bool.false_eq_true, if_false] at hin
    have h1 := List.take_subset _ _ hin
    rw [sortDesc, List.mem_mergeSort] at h1
    have h2 := (List.mem_filter.mp h1).2
    rw [hown] at h2
    have h3 : c1.user_id = c2.user_id := by simpa using h2
    exact hdiff h3.symm
  · have hfind := find?_key_of_mem AdRequest.id huniq hmem
    simp [get_ad_request, findOne, hadmin, hfind]
  · intro hlen
    have hb : (admin.role == "admin") = true := by simp [hadmin]
    simp only [get_ad_requests, hb, if_true]
    rw [List.take_of_length_le (by simpa [sortDesc] using hlen)]
    simp [sortDesc, hmem]

/-- Witness for the amended C4: in `sampleDB`, owner `c1` fetches and lists
`sampleAd`, client `c2` gets a 404 and an empty view, and the admin sees it. -/
theorem adRequest_ownership_isolation_witness :
    get_ad_request sampleDB sampleAd.id ⟨"c1", "c1@x.com", "client", 0⟩ = .ok sampleAd ∧
    sampleAd ∈ get_ad_requests sampleDB ⟨"c1", "c1@x.com", "client", 0⟩ ∧
    get_ad_request sampleDB sampleAd.id ⟨"c2", "c2@x.com", "client", 0⟩ =
      .error ⟨404, "Ad request not found"⟩ ∧
    sampleAd ∉ get_ad_requests sampleDB ⟨"c2", "c2@x.com", "client", 0⟩ ∧
    get_ad_request sampleDB sampleAd.id sampleAdmin = .ok sampleAd ∧
    sampleAd ∈ get_ad_requests sampleDB sampleAdmin := by
  have T := adRequest_ownership_isolation sampleDB sampleAd
    ⟨"c1", "c1@x.com", "client", 0⟩ ⟨"c2", "c2@x.com", "client", 0⟩ sampleAdmin
    (by decide) (by decide) rfl rfl rfl (by decide) rfl
  exact ⟨T.1, T.2.1 (by decide), T.2.2.1, T.2.2.2.1, T.2.2.2.2.1, T.2.2.2.2.2 (by decide)⟩

end AdPay
